import Mathlib

/-
Shallow embedding of the sval serde bridge (`src/sval/src/serde/to_serialize.rs`)
and the debug-gated validation guard (`src/src/collect/stack.rs`).

The bridge drives a foreign serde-style `Serializer`; the serializer interface
is modelled as a record of pure operations returning `Except`.  Rust's
`&mut self` operations are modelled by returning the updated builder on
success; on failure the slot keeps the old builder (occupancy is unchanged,
matching the borrow-based `expect_*` paths of the source).  Operations that
move `self` (`take_*` paths) leave the one-slot `current` empty exactly when
the source does.
-/

namespace Sval

/-- Position of the next primitive value.  Modelled from the spec: the
`stream::Pos` type itself is not under `src/`; the spec fixes it as one of
Root | Key | Value | Elem, matched exactly by the `use stream::Pos::*` match
arms of `Stream::primitive`. -/
inductive Pos where
  | Root
  | Key
  | Value
  | Elem
deriving DecidableEq, Repr

/-- The bridge's error type.  Modelled from the spec: `stream::Error` and the
`err(msg)` wrapping helper live outside `src/`; structural errors carry a
message (`Error::msg`), and foreign-serializer errors are wrapped with a
human-readable context string (`.map_err(err("..."))` in the source). -/
inductive SvalError (E : Type) where
  | msg (s : String)
  | wrapped (ctx : String) (e : E)
deriving DecidableEq, Repr

/-- `Error::msg("attempt to use an invalid serializer")` — returned by
`Stream::take` / `Stream::expect` when the current slot is empty, and by
`Stream::primitive` when no position is set. -/
def invalidSerializerErr {E : Type} : SvalError E :=
  .msg "attempt to use an invalid serializer"

/-- `Error::msg("invalid serializer value")` — returned by the
`Current::take_serializer` / `expect_serialize_seq` / `take_serialize_seq` /
`expect_serialize_map` / `take_serialize_map` variant checks. -/
def invalidSerializerValueErr {E : Type} : SvalError E :=
  .msg "invalid serializer value"

/-- The foreign serde `Serializer` surface used by the bridge: `Ser` is the
root serializer (`S`), `Sq` its `S::SerializeSeq`, `Mp` its `S::SerializeMap`,
`Ok` its `S::Ok`, `E` its `S::Error`, and `V` the (opaque) primitive payload
type.  `serializeRoot v s` is `v.serialize(s)`. -/
structure SerImpl (V Ok E Ser Sq Mp : Type) where
  serializeSeq : Ser → Option Nat → Except E Sq
  serializeMap : Ser → Option Nat → Except E Mp
  serializeRoot : V → Ser → Except E Ok
  serializeElement : Sq → V → Except E Sq
  seqEnd : Sq → Except E Ok
  serializeKey : Mp → V → Except E Mp
  serializeValue : Mp → V → Except E Mp
  mapEnd : Mp → Except E Ok

/-- `enum Current<S> { Serializer(S), SerializeSeq(S::SerializeSeq),
SerializeMap(S::SerializeMap) }`. -/
inductive Current (Ser Sq Mp : Type) where
  | serializer (s : Ser)
  | serializeSeq (q : Sq)
  | serializeMap (m : Mp)
deriving DecidableEq, Repr

/-- `struct Stream<S> { ok: Option<S::Ok>, pos: Option<stream::Pos>,
current: Option<Current<S>> }`. -/
structure StreamState (Ok Ser Sq Mp : Type) where
  ok : Option Ok
  pos : Option Pos
  current : Option (Current Ser Sq Mp)
deriving DecidableEq, Repr

namespace Bridge

variable {V Ok E Ser Sq Mp : Type}

/-- `Stream::begin(ser)`: ok = None, pos = Some(Root),
current = Some(Serializer(ser)). -/
def beginStream (ser : Ser) : StreamState Ok Ser Sq Mp :=
  { ok := none, pos := some .Root, current := some (.serializer ser) }

/-- `Stream::map_serializer(f)`: `self.take()?.take_serializer()?`, then the
slot is refilled with `f`'s output on success; `f`'s foreign error is wrapped
with `"error maping serializer"` (message as written in the source).  The
fallible operations return the `Result` together with the post-call state,
since in Rust the stream persists (by `&mut`) across a returned `Err`. -/
def mapSerializer (st : StreamState Ok Ser Sq Mp)
    (f : Ser → Except E (Current Ser Sq Mp)) :
    Except (SvalError E) Unit × StreamState Ok Ser Sq Mp :=
  match st.current with
  | none => (.error invalidSerializerErr, st)
  | some c =>
    let st1 := { st with current := none }
    match c with
    | .serializer ser =>
      match f ser with
      | .ok cur => (.ok (), { st1 with current := some cur })
      | .error e => (.error (.wrapped "error maping serializer" e), st1)
    | _ => (.error invalidSerializerValueErr, st1)

/-- `Stream::seq_begin(len)`. -/
def seqBegin (impl : SerImpl V Ok E Ser Sq Mp) (st : StreamState Ok Ser Sq Mp)
    (len : Option Nat) : Except (SvalError E) Unit × StreamState Ok Ser Sq Mp :=
  mapSerializer st (fun ser => (impl.serializeSeq ser len).map (fun q => .serializeSeq q))

/-- `Stream::map_begin(len)`. -/
def mapBegin (impl : SerImpl V Ok E Ser Sq Mp) (st : StreamState Ok Ser Sq Mp)
    (len : Option Nat) : Except (SvalError E) Unit × StreamState Ok Ser Sq Mp :=
  mapSerializer st (fun ser => (impl.serializeMap ser len).map (fun m => .serializeMap m))

/-- `Stream::seq_elem()`: sets pos = Some(Elem), touches nothing else. -/
def seqElem (st : StreamState Ok Ser Sq Mp) :
    Except (SvalError E) Unit × StreamState Ok Ser Sq Mp :=
  (.ok (), { st with pos := some .Elem })

/-- `Stream::map_key()`: sets pos = Some(Key). -/
def mapKey (st : StreamState Ok Ser Sq Mp) :
    Except (SvalError E) Unit × StreamState Ok Ser Sq Mp :=
  (.ok (), { st with pos := some .Key })

/-- `Stream::map_value()`: sets pos = Some(Value). -/
def mapValue (st : StreamState Ok Ser Sq Mp) :
    Except (SvalError E) Unit × StreamState Ok Ser Sq Mp :=
  (.ok (), { st with pos := some .Value })

/-- `Stream::seq_end()`: `self.take()?.take_serialize_seq()?`, then
`self.ok = Some(seq.end().map_err(err("error completing sequence"))?)`.
The taken builder is never put back. -/
def seqEnd (impl : SerImpl V Ok E Ser Sq Mp) (st : StreamState Ok Ser Sq Mp) :
    Except (SvalError E) Unit × StreamState Ok Ser Sq Mp :=
  match st.current with
  | none => (.error invalidSerializerErr, st)
  | some c =>
    let st1 := { st with current := none }
    match c with
    | .serializeSeq q =>
      match impl.seqEnd q with
      | .ok o => (.ok (), { st1 with ok := some o })
      | .error e => (.error (.wrapped "error completing sequence" e), st1)
    | _ => (.error invalidSerializerValueErr, st1)

/-- `Stream::map_end()`: as `seq_end` with `take_serialize_map` and
`"error completing map"`. -/
def mapEnd (impl : SerImpl V Ok E Ser Sq Mp) (st : StreamState Ok Ser Sq Mp) :
    Except (SvalError E) Unit × StreamState Ok Ser Sq Mp :=
  match st.current with
  | none => (.error invalidSerializerErr, st)
  | some c =>
    let st1 := { st with current := none }
    match c with
    | .serializeMap m =>
      match impl.mapEnd m with
      | .ok o => (.ok (), { st1 with ok := some o })
      | .error e => (.error (.wrapped "error completing map" e), st1)
    | _ => (.error invalidSerializerValueErr, st1)

/-- `Stream::primitive(v)`: `match self.pos.take()` — the position is consumed
before dispatch in every branch.  Key/Value/Elem branches go through
`self.expect()?` (a borrow: the slot keeps its builder on a variant mismatch
and is updated in place on success); the Root branch goes through
`self.take()?.take_serializer()?` (the slot is emptied) and — exactly as the
source has it — the `S::Ok` value returned by `v.serialize(ser)` is dropped,
`self.ok` is left untouched.  The Root branch wraps foreign errors with the
source's literal string `"error serializing 128bit signed integer"`. -/
def primitive (impl : SerImpl V Ok E Ser Sq Mp) (st : StreamState Ok Ser Sq Mp)
    (v : V) : Except (SvalError E) Unit × StreamState Ok Ser Sq Mp :=
  let p := st.pos
  let st0 : StreamState Ok Ser Sq Mp := { st with pos := none }
  match p with
  | some .Key =>
    match st0.current with
    | none => (.error invalidSerializerErr, st0)
    | some c =>
      match c with
      | .serializeMap m =>
        match impl.serializeKey m v with
        | .ok m' => (.ok (), { st0 with current := some (.serializeMap m') })
        | .error e => (.error (.wrapped "error map serializing key" e), st0)
      | _ => (.error invalidSerializerValueErr, st0)
  | some .Value =>
    match st0.current with
    | none => (.error invalidSerializerErr, st0)
    | some c =>
      match c with
      | .serializeMap m =>
        match impl.serializeValue m v with
        | .ok m' => (.ok (), { st0 with current := some (.serializeMap m') })
        | .error e => (.error (.wrapped "error serializing map value" e), st0)
      | _ => (.error invalidSerializerValueErr, st0)
  | some .Elem =>
    match st0.current with
    | none => (.error invalidSerializerErr, st0)
    | some c =>
      match c with
      | .serializeSeq q =>
        match impl.serializeElement q v with
        | .ok q' => (.ok (), { st0 with current := some (.serializeSeq q') })
        | .error e => (.error (.wrapped "error serializing sequence element" e), st0)
      | _ => (.error invalidSerializerValueErr, st0)
  | some .Root =>
    match st0.current with
    | none => (.error invalidSerializerErr, st0)
    | some c =>
      let st1 := { st0 with current := none }
      match c with
      | .serializer ser =>
        match impl.serializeRoot v ser with
        | .ok _o => (.ok (), st1)
        | .error e => (.error (.wrapped "error serializing 128bit signed integer" e), st1)
      | _ => (.error invalidSerializerValueErr, st1)
  | none => (.error invalidSerializerErr, st0)

end Bridge

/-- One structural event of the consumed protocol, as driven by
`crate::stream(&value, &mut stream)`.  The value-walking driver itself is out
of scope (the spec treats it as a given producer); a serialization pass is
modelled as the list of `stream::Stream` calls it makes.  All primitive-kind
methods (`i64`, `u64`, `i128`, `u128`, `f64`, `bool`, `char`, `str`, `none`,
`fmt`) call `Stream::primitive(v)` with the payload, so a primitive event
carries the opaque payload `v : V`. -/
inductive Event (V : Type) where
  | seqBegin (len : Option Nat)
  | seqElem
  | seqEnd
  | mapBegin (len : Option Nat)
  | mapKey
  | mapValue
  | mapEnd
  | primitive (v : V)
deriving DecidableEq, Repr

namespace Bridge

variable {V Ok E Ser Sq Mp : Type}

/-- Dispatch of one event to the corresponding `stream::Stream` method of the
bridge. -/
def step (impl : SerImpl V Ok E Ser Sq Mp) (st : StreamState Ok Ser Sq Mp) :
    Event V → Except (SvalError E) Unit × StreamState Ok Ser Sq Mp
  | .seqBegin len => seqBegin impl st len
  | .seqElem => seqElem st
  | .seqEnd => seqEnd impl st
  | .mapBegin len => mapBegin impl st len
  | .mapKey => mapKey st
  | .mapValue => mapValue st
  | .mapEnd => mapEnd impl st
  | .primitive v => primitive impl st v

/-- Run a list of events; stop at the first method that returns `Err`
(`crate::stream` propagates the first error with `?`). -/
def runEvents (impl : SerImpl V Ok E Ser Sq Mp) (st : StreamState Ok Ser Sq Mp) :
    List (Event V) → Except (SvalError E) Unit × StreamState Ok Ser Sq Mp
  | [] => (.ok (), st)
  | ev :: rest =>
    match step impl st ev with
    | (.ok _, st') => runEvents impl st' rest
    | (.error e, st') => (.error e, st')

/-- Outcome of `ToSerialize::serialize`: a normal return with `S::Ok`, an
error return (`S::Error::custom` applied to the stream error — the stream
error is carried as-is, the conversion is foreign), or a panic with its
message. -/
inductive SerOutcome (Ok E : Type) where
  | ok (v : Ok)
  | err (e : SvalError E)
  | panicked (msg : String)
deriving DecidableEq, Repr

/-- `ToSerialize::serialize`: build `Stream::begin(serializer)`, drive the
event stream, propagate a stream error via `map_err(S::Error::custom)?`,
otherwise `stream.expect_ok()` = `self.ok.expect("missing return value")` —
a panic (modelled as the `panicked` outcome) when the `ok` slot is `None`. -/
def serialize (impl : SerImpl V Ok E Ser Sq Mp) (ser : Ser)
    (evs : List (Event V)) : SerOutcome Ok E :=
  match runEvents impl (beginStream ser) evs with
  | (.error e, _) => .err e
  | (.ok _, st) =>
    match st.ok with
    | some v => .ok v
    | none => .panicked "missing return value"

end Bridge

/-- The primitive payloads the source's `stream::Stream` impl forwards: one
constructor per primitive-kind method.  The bridge never inspects the payload
(it is generic `impl Serialize`), so `f64` is carried as an opaque bit
pattern, `fmt` as its rendered text and `none` as the absence marker
(`Option::None::<()>` in the source). -/
inductive Prim where
  | i64 (v : Int)
  | u64 (v : Nat)
  | i128 (v : Int)
  | u128 (v : Nat)
  | f64 (bits : Nat)
  | bool (b : Bool)
  | char (c : Char)
  | str (s : String)
  | none
  | fmt (s : String)
deriving DecidableEq, Repr

/-- Output values of the concrete collecting serializer used to exercise the
bridge: a root primitive, a finished sequence, or a finished map (keys tagged
`Sum.inl`, values `Sum.inr`, in call order). -/
inductive Out (V : Type) where
  | prim (v : V)
  | seqOut (xs : List V)
  | mapOut (xs : List (Sum V V))
deriving DecidableEq, Repr

/-- A concrete, always-succeeding serde serializer: it records what it is
given.  `Ser := Unit`, `S::SerializeSeq := List V` (elements so far),
`S::SerializeMap := List (Sum V V)` (keys/values so far), `S::Ok := Out V`,
`S::Error := String` (never produced). -/
def collector (V : Type) : SerImpl V (Out V) String Unit (List V) (List (Sum V V)) where
  serializeSeq := fun _ _ => .ok []
  serializeMap := fun _ _ => .ok []
  serializeRoot := fun v _ => .ok (.prim v)
  serializeElement := fun q v => .ok (q ++ [v])
  seqEnd := fun q => .ok (.seqOut q)
  serializeKey := fun m v => .ok (m ++ [Sum.inl v])
  serializeValue := fun m v => .ok (m ++ [Sum.inr v])
  mapEnd := fun m => .ok (.mapOut m)

/-- A serializer whose root-primitive operation fails with a fixed foreign
error, used to exercise error wrapping.  All other operations also fail with
distinct foreign errors. -/
def failingSer (V : Type) : SerImpl V (Out V) String Unit (List V) (List (Sum V V)) where
  serializeSeq := fun _ _ => .error "seq begin failed"
  serializeMap := fun _ _ => .error "map begin failed"
  serializeRoot := fun _ _ => .error "root failed"
  serializeElement := fun _ _ => .error "elem failed"
  seqEnd := fun _ => .error "seq end failed"
  serializeKey := fun _ _ => .error "key failed"
  serializeValue := fun _ _ => .error "value failed"
  mapEnd := fun _ => .error "map end failed"

/-- `struct DebugStack { inner: DebugStackInner, poisoned: bool }` in a
validating (`debug_assertions`) build.  The inner validation automaton
(`stream::stack::Stack`, not under `src/`) is kept abstract as `I`: the guard
logic of `DebugRefMut::<DebugStack>::and_then` is generic in what the callback
does to it. -/
structure DebugStack (I : Type) where
  inner : I
  poisoned : Bool
deriving DecidableEq, Repr

namespace Guard

variable {I E : Type}

/-- `Error::msg("attempt to use a poisoned stream")`. -/
def poisonedErr {E : Type} : SvalError E :=
  .msg "attempt to use a poisoned stream"

/-- `DebugRefMut::<DebugStack>::and_then(f)` in a validating build: if
poisoned, fail immediately with the poisoning error (the callback is not run —
the result does not depend on `f`, and the state is unchanged); otherwise set
the poison flag, run `f` against the inner stack (the callback returns its
`Result` and the mutated inner state), clear the flag only on success, and
propagate the callback's result unchanged. -/
def andThen (st : DebugStack I) (f : I → Except (SvalError E) Unit × I) :
    Except (SvalError E) Unit × DebugStack I :=
  if st.poisoned then
    (.error poisonedErr, st)
  else
    match f st.inner with
    | (.ok u, i') => (.ok u, { inner := i', poisoned := false })
    | (.error e, i') => (.error e, { inner := i', poisoned := true })

/-- Run a list of validated operations in order against the same guard,
collecting each operation's result. -/
def andThenAll (st : DebugStack I) :
    List (I → Except (SvalError E) Unit × I) →
      List (Except (SvalError E) Unit) × DebugStack I
  | [] => ([], st)
  | f :: fs =>
    let (r, st') := andThen st f
    let (rs, st'') := andThenAll st' fs
    (r :: rs, st'')

end Guard

/-! Helper lemmas (shared; not tied to a single claim). -/

/-- The position slot is `None` after any `Stream::primitive` call: the
source's `self.pos.take()` runs before the dispatch in every branch. -/
theorem primitive_pos_none {V Ok E Ser Sq Mp : Type}
    (impl : SerImpl V Ok E Ser Sq Mp) (st : StreamState Ok Ser Sq Mp) (v : V) :
    (Bridge.primitive impl st v).2.pos = none := by
  unfold Bridge.primitive
  dsimp only
  repeat' split
  all_goals rfl

/-- With no position set, `Stream::primitive` fails with the
invalid-serializer error and leaves the state unchanged. -/
theorem primitive_of_pos_none {V Ok E Ser Sq Mp : Type}
    (impl : SerImpl V Ok E Ser Sq Mp) (st : StreamState Ok Ser Sq Mp) (v : V)
    (h : st.pos = none) :
    Bridge.primitive impl st v = (.error invalidSerializerErr, st) := by
  obtain ⟨ok, pos, cur⟩ := st
  subst h
  rfl

/-- A poisoned guard rejects every operation of a whole batch and its state
never changes. -/
theorem andThenAll_of_poisoned {I E : Type} (st : DebugStack I)
    (h : st.poisoned = true)
    (gs : List (I → Except (SvalError E) Unit × I)) :
    Guard.andThenAll st gs
      = (gs.map (fun _ => (.error Guard.poisonedErr : Except (SvalError E) Unit)), st) := by
  induction gs with
  | nil => rfl
  | cons g gs ih => simp [Guard.andThenAll, Guard.andThen, h, ih]

/-! Claim theorems. -/

/-- C9: `seq_elem`, `map_key` and `map_value` always return `Ok(())` and only
set the position (to Elem, Key, Value respectively), leaving the current
builder slot and the result slot unchanged. -/
theorem c9_positional_calls_only_set_position
    {Ok E Ser Sq Mp : Type} (st : StreamState Ok Ser Sq Mp) :
    @Bridge.seqElem Ok E Ser Sq Mp st = (.ok (), { st with pos := some .Elem })
    ∧ @Bridge.mapKey Ok E Ser Sq Mp st = (.ok (), { st with pos := some .Key })
    ∧ @Bridge.mapValue Ok E Ser Sq Mp st = (.ok (), { st with pos := some .Value }) :=
  ⟨rfl, rfl, rfl⟩

/-- C4: a primitive event consumes the stored position (`self.pos.take()`),
whatever else happens; when no position is set the call fails with
`"attempt to use an invalid serializer"` leaving the state unchanged; hence a
second primitive issued directly after any primitive — with no intervening
`seq_elem`/`map_key`/`map_value` — fails with that error. -/
theorem c4_primitive_consumes_position {V Ok E Ser Sq Mp : Type}
    (impl : SerImpl V Ok E Ser Sq Mp) (st : StreamState Ok Ser Sq Mp) (v w : V) :
    (Bridge.primitive impl st v).2.pos = none
    ∧ (st.pos = none → Bridge.primitive impl st v = (.error invalidSerializerErr, st))
    ∧ (Bridge.primitive impl (Bridge.primitive impl st v).2 w).1
        = .error invalidSerializerErr := by
  refine ⟨primitive_pos_none impl st v, ?_, ?_⟩
  · exact primitive_of_pos_none impl st v
  · rw [primitive_of_pos_none impl _ w (primitive_pos_none impl st v)]

/-- C4 witness: at the start state over the collecting serializer, a first
string primitive succeeds and an immediately following one fails with
`"attempt to use an invalid serializer"`. -/
theorem c4_witness :
    ((Bridge.beginStream () : StreamState (Out Prim) Unit (List Prim)
        (List (Sum Prim Prim))).pos = none → False)
    ∧ (Bridge.primitive (collector Prim)
        (Bridge.primitive (collector Prim) (Bridge.beginStream ())
          (Prim.str "a")).2 (Prim.str "b")).1 = .error invalidSerializerErr := by
  refine ⟨fun h => by simp [Bridge.beginStream] at h, ?_⟩
  exact (c4_primitive_consumes_position (collector Prim) (Bridge.beginStream ())
    (Prim.str "a") (Prim.str "b")).2.2

/-- C2: `DebugRefMut::<DebugStack>::and_then` in a validating build: a
poisoned guard fails immediately with the poisoning error for every callback
(the callback is not run — the result is the same for all `f` — and the state
is unchanged); an unpoisoned guard runs the callback, clears the poison flag
only on success and keeps it set on failure, propagating the callback's
result unchanged; consequently after a validated operation whose callback
fails, every operation of any subsequent batch is rejected with the
poisoning error. -/
theorem c2_guard_poisoning {I E : Type} (st : DebugStack I)
    (f : I → Except (SvalError E) Unit × I)
    (gs : List (I → Except (SvalError E) Unit × I)) :
    (st.poisoned = true → Guard.andThen st f = (.error Guard.poisonedErr, st))
    ∧ (st.poisoned = false →
        Guard.andThen st f =
          match f st.inner with
          | (.ok u, i') => (.ok u, { inner := i', poisoned := false })
          | (.error e, i') => (.error e, { inner := i', poisoned := true }))
    ∧ (st.poisoned = false → ∀ e i', f st.inner = (.error e, i') →
        (Guard.andThenAll (Guard.andThen st f).2 gs).1
          = gs.map (fun _ => .error Guard.poisonedErr)) := by
  refine ⟨?_, ?_, ?_⟩
  · intro h
    simp [Guard.andThen, h]
  · intro h
    rcases hf : f st.inner with ⟨r, i'⟩
    cases r <;> simp [Guard.andThen, h, hf]
  · intro h e i' hf
    have h2 : (Guard.andThen st f).2.poisoned = true := by
      simp [Guard.andThen, h, hf]
    rw [andThenAll_of_poisoned _ h2 gs]

/-- C2 witness: a poisoned guard over `I := Nat` rejects a succeeding
callback and keeps its state; after a failing callback on a fresh guard, a
subsequent batch of one operation is rejected with the poisoning error. -/
theorem c2_witness :
    Guard.andThen (⟨0, true⟩ : DebugStack Nat)
        (fun i => ((.ok () : Except (SvalError String) Unit), i + 1))
      = (.error Guard.poisonedErr, ⟨0, true⟩)
    ∧ (Guard.andThenAll
        (Guard.andThen (⟨0, false⟩ : DebugStack Nat)
          (fun i => ((.error (.msg "boom") : Except (SvalError String) Unit), i))).2
        [fun i => ((.ok () : Except (SvalError String) Unit), i)]).1
      = [.error Guard.poisonedErr] := by
  constructor
  · exact (c2_guard_poisoning (⟨0, true⟩ : DebugStack Nat)
      (fun i => ((.ok () : Except (SvalError String) Unit), i + 1)) []).1 rfl
  · exact (c2_guard_poisoning (⟨0, false⟩ : DebugStack Nat)
      (fun i => ((.error (.msg "boom") : Except (SvalError String) Unit), i))
      [fun i => ((.ok () : Except (SvalError String) Unit), i)]).2.2 rfl
      (.msg "boom") 0 rfl

/-- C10: `ToSerialize::serialize` returns normally only if the `ok` slot was
filled (the returned value is exactly its content); if the event stream runs
to completion without error but the slot was never filled, `expect_ok`
panics with `"missing return value"` instead of returning an error value. -/
theorem c10_serialize_missing_result_panics {V Ok E Ser Sq Mp : Type}
    (impl : SerImpl V Ok E Ser Sq Mp) (ser : Ser) (evs : List (Event V)) :
    (∀ v, Bridge.serialize impl ser evs = .ok v →
        (Bridge.runEvents impl (Bridge.beginStream ser) evs).2.ok = some v)
    ∧ (∀ u, (Bridge.runEvents impl (Bridge.beginStream ser) evs).1 = .ok u →
        (Bridge.runEvents impl (Bridge.beginStream ser) evs).2.ok = none →
        Bridge.serialize impl ser evs = .panicked "missing return value") := by
  rcases hr : Bridge.runEvents impl (Bridge.beginStream ser) evs with ⟨r, stf⟩
  constructor
  · intro v hv
    simp only [Bridge.serialize, hr] at hv
    cases r with
    | error e => exact absurd hv (by simp)
    | ok u =>
      dsimp only at hv
      cases hok : stf.ok with
      | none =>
        rw [hok] at hv
        exact absurd hv (by simp)
      | some w =>
        rw [hok] at hv
        dsimp only at hv
        simp only [Bridge.SerOutcome.ok.injEq] at hv
        rw [hv]
  · intro u hu hnone
    simp only at hu hnone
    cases r with
    | error e => exact absurd hu (by simp)
    | ok u' => simp [Bridge.serialize, hr, hnone]

/-- C10 witness: the empty event stream runs to completion with the `ok`
slot empty, and `serialize` panics with `"missing return value"`. -/
theorem c10_witness :
    Bridge.serialize (collector Prim) () ([] : List (Event Prim))
      = .panicked "missing return value" :=
  (c10_serialize_missing_result_panics (collector Prim) () []).2 () rfl rfl

/-- C1 (evaluation at the failing input): a stream consisting of the single
event `primitive("hello")` at root succeeds call-by-call — the root
serializer is taken and the primitive forwarded to it — but the `Some(Root)`
arm of `Stream::primitive` drops the `S::Ok` value returned by
`v.serialize(ser)` instead of storing it in `self.ok`, so the pass ends with
the result slot empty and `ToSerialize::serialize` panics with
`"missing return value"` instead of returning the string `"hello"`. -/
theorem c1_root_primitive_drops_result :
    (Bridge.primitive (collector Prim) (Bridge.beginStream ())
        (Prim.str "hello")).1 = .ok ()
    ∧ (Bridge.primitive (collector Prim) (Bridge.beginStream ())
        (Prim.str "hello")).2.ok = none
    ∧ (Bridge.primitive (collector Prim) (Bridge.beginStream ())
        (Prim.str "hello")).2.current = none
    ∧ (collector Prim).serializeRoot (Prim.str "hello") ()
        = .ok (.prim (.str "hello"))
    ∧ Bridge.serialize (collector Prim) () [.primitive (.str "hello")]
      = .panicked "missing return value" :=
  ⟨rfl, rfl, rfl, rfl, rfl⟩

/-- A bridge state whose current builder is an active (empty) map builder,
over the collecting serializer's types. -/
def midMapState : StreamState (Out Prim) Unit (List Prim) (List (Sum Prim Prim)) :=
  { ok := none, pos := none, current := some (.serializeMap []) }

/-- C3 counterexample: `seq_end` invoked while the current builder is an
active map builder (the claim's own example) returns the structural error —
but the slot is NOT refilled before returning control: the post-call current
slot is empty, and the next operation observes the emptiness as
`"attempt to use an invalid serializer"`. -/
theorem c3_counterexample_slot_left_empty :
    (Bridge.seqEnd (collector Prim) midMapState).1 = .error invalidSerializerValueErr
    ∧ (Bridge.seqEnd (collector Prim) midMapState).2.current = none
    ∧ (Bridge.seqEnd (collector Prim)
        (Bridge.seqEnd (collector Prim) midMapState).2).1 = .error invalidSerializerErr :=
  ⟨rfl, rfl, rfl⟩

/-- C3 (amended): only `seq_begin`/`map_begin` refill the current-builder
slot, and only on success (the refilled slot holds the builder the foreign
start operation returned).  `seq_end`, `map_end` and a Root-position
primitive consume the taken builder and always leave the slot empty —
also when they fail — and emptiness is observed by any later taking
operation as the `"attempt to use an invalid serializer"` error rather than
being prevented. -/
theorem c3_amended_slot_discipline {V Ok E Ser Sq Mp : Type}
    (impl : SerImpl V Ok E Ser Sq Mp) (st : StreamState Ok Ser Sq Mp)
    (len : Option Nat) (v : V) :
    (∀ u, (Bridge.seqBegin impl st len).1 = .ok u →
        ∃ q, (Bridge.seqBegin impl st len).2.current = some (.serializeSeq q))
    ∧ (∀ u, (Bridge.mapBegin impl st len).1 = .ok u →
        ∃ m, (Bridge.mapBegin impl st len).2.current = some (.serializeMap m))
    ∧ (st.current ≠ none → (Bridge.seqEnd impl st).2.current = none)
    ∧ (st.current ≠ none → (Bridge.mapEnd impl st).2.current = none)
    ∧ (st.pos = some .Root → (Bridge.primitive impl st v).2.current = none)
    ∧ (st.current = none →
        (Bridge.seqEnd impl st).1 = .error invalidSerializerErr
        ∧ (Bridge.mapEnd impl st).1 = .error invalidSerializerErr
        ∧ (Bridge.seqBegin impl st len).1 = .error invalidSerializerErr) := by
  obtain ⟨ok, pos, cur⟩ := st
  refine ⟨?_, ?_, ?_, ?_, ?_, ?_⟩
  · intro u hu
    rcases cur with _ | c
    · exact absurd hu (by simp [Bridge.seqBegin, Bridge.mapSerializer])
    · cases c with
      | serializer s =>
        rcases hs : impl.serializeSeq s len with e | q
        · exact absurd hu
            (by simp [Bridge.seqBegin, Bridge.mapSerializer, hs, Except.map])
        · exact ⟨q, by simp [Bridge.seqBegin, Bridge.mapSerializer, hs, Except.map]⟩
      | serializeSeq q =>
        exact absurd hu (by simp [Bridge.seqBegin, Bridge.mapSerializer])
      | serializeMap m =>
        exact absurd hu (by simp [Bridge.seqBegin, Bridge.mapSerializer])
  · intro u hu
    rcases cur with _ | c
    · exact absurd hu (by simp [Bridge.mapBegin, Bridge.mapSerializer])
    · cases c with
      | serializer s =>
        rcases hs : impl.serializeMap s len with e | m
        · exact absurd hu
            (by simp [Bridge.mapBegin, Bridge.mapSerializer, hs, Except.map])
        · exact ⟨m, by simp [Bridge.mapBegin, Bridge.mapSerializer, hs, Except.map]⟩
      | serializeSeq q =>
        exact absurd hu (by simp [Bridge.mapBegin, Bridge.mapSerializer])
      | serializeMap m =>
        exact absurd hu (by simp [Bridge.mapBegin, Bridge.mapSerializer])
  · intro h
    rcases cur with _ | c
    · exact absurd rfl h
    · cases c with
      | serializer s => rfl
      | serializeSeq q => rcases hq : impl.seqEnd q with e | o <;> simp [Bridge.seqEnd, hq]
      | serializeMap m => rfl
  · intro h
    rcases cur with _ | c
    · exact absurd rfl h
    · cases c with
      | serializer s => rfl
      | serializeSeq q => rfl
      | serializeMap m => rcases hm : impl.mapEnd m with e | o <;> simp [Bridge.mapEnd, hm]
  · intro h
    cases h
    rcases cur with _ | c
    · rfl
    · cases c with
      | serializer s => rcases hs : impl.serializeRoot v s with e | o <;> simp [Bridge.primitive, hs]
      | serializeSeq q => rfl
      | serializeMap m => rfl
  · intro h
    cases h
    exact ⟨rfl, rfl, rfl⟩

/-- C3 witness: over the collecting serializer, a successful `seq_begin`
from the start state refills the slot with the returned sequence builder,
and the amended emptiness facts hold at the mid-map state. -/
theorem c3_witness :
    (∃ q, (Bridge.seqBegin (collector Prim) (Bridge.beginStream ())
        (some 3)).2.current = some (.serializeSeq q))
    ∧ (Bridge.mapEnd (collector Prim) midMapState).2.current = none := by
  constructor
  · exact (c3_amended_slot_discipline (collector Prim) (Bridge.beginStream ())
      (some 3) (Prim.str "x")).1 () rfl
  · exact (c3_amended_slot_discipline (collector Prim) midMapState
      (some 3) (Prim.str "x")).2.2.2.1 (by simp [midMapState])

/-- C5: driving the bridge from the start state with `seq_begin(Some(3))`,
three repetitions of `seq_elem()` followed by a primitive carrying v1, v2,
v3, then `seq_end()`, succeeds whenever the foreign builder's own operations
succeed, forwards the three values to the foreign sequence builder in order
(the hypotheses chain the builder states q0 → q1 → q2 → q3 through v1, v2,
v3), and stores the output of the foreign end operation as the result. -/
theorem c5_seq_of_three {V Ok E Ser Sq Mp : Type}
    (impl : SerImpl V Ok E Ser Sq Mp) (ser : Ser) (v1 v2 v3 : V)
    (q0 q1 q2 q3 : Sq) (out : Ok)
    (hb : impl.serializeSeq ser (some 3) = .ok q0)
    (h1 : impl.serializeElement q0 v1 = .ok q1)
    (h2 : impl.serializeElement q1 v2 = .ok q2)
    (h3 : impl.serializeElement q2 v3 = .ok q3)
    (he : impl.seqEnd q3 = .ok out) :
    Bridge.serialize impl ser
      [.seqBegin (some 3), .seqElem, .primitive v1, .seqElem, .primitive v2,
       .seqElem, .primitive v3, .seqEnd] = .ok out := by
  simp [Bridge.serialize, Bridge.runEvents, Bridge.step, Bridge.beginStream,
    Bridge.seqBegin, Bridge.mapSerializer, Bridge.seqElem, Bridge.primitive,
    Bridge.seqEnd, Except.map, hb, h1, h2, h3, he]

/-- C5 witness: with the collecting serializer and the integers 1, 2, 3, the
output is the three-element sequence [1, 2, 3]. -/
theorem c5_witness :
    Bridge.serialize (collector Prim) ()
      [.seqBegin (some 3), .seqElem, .primitive (.i64 1), .seqElem,
       .primitive (.i64 2), .seqElem, .primitive (.i64 3), .seqEnd]
      = .ok (.seqOut [.i64 1, .i64 2, .i64 3]) :=
  c5_seq_of_three (collector Prim) () (.i64 1) (.i64 2) (.i64 3)
    [] [.i64 1] [.i64 1, .i64 2] [.i64 1, .i64 2, .i64 3]
    (.seqOut [.i64 1, .i64 2, .i64 3]) rfl rfl rfl rfl rfl

/-- A bridge state whose current builder is an active sequence builder
holding one element, over the collecting serializer's types. -/
def midSeqState : StreamState (Out Prim) Unit (List Prim) (List (Sum Prim Prim)) :=
  { ok := none, pos := none, current := some (.serializeSeq [.i64 1]) }

/-- C6: `seq_begin` and `map_begin` succeed only from a bare root serializer:
when the current builder is the root serializer and the foreign start
operation succeeds, the returned builder is stored as the new current
builder (everything else unchanged); with an active sequence builder, an
active map builder, or an empty slot, both return a structural
(message-only) error whose value — and the entire call result — is the same
for every foreign implementation, i.e. the foreign start operation is not
consulted. -/
theorem c6_begin_requires_bare_root {V Ok E Ser Sq Mp : Type}
    (impl impl' : SerImpl V Ok E Ser Sq Mp) (st : StreamState Ok Ser Sq Mp)
    (len : Option Nat) :
    (∀ s, st.current = some (.serializer s) →
        (∀ q, impl.serializeSeq s len = .ok q →
           Bridge.seqBegin impl st len
             = (.ok (), { st with current := some (.serializeSeq q) }))
        ∧ (∀ m, impl.serializeMap s len = .ok m →
           Bridge.mapBegin impl st len
             = (.ok (), { st with current := some (.serializeMap m) })))
    ∧ ((∀ s, st.current ≠ some (.serializer s)) →
        (∃ msg, (Bridge.seqBegin impl st len).1 = .error (.msg msg))
        ∧ (∃ msg, (Bridge.mapBegin impl st len).1 = .error (.msg msg))
        ∧ Bridge.seqBegin impl st len = Bridge.seqBegin impl' st len
        ∧ Bridge.mapBegin impl st len = Bridge.mapBegin impl' st len) := by
  obtain ⟨ok, pos, cur⟩ := st
  constructor
  · intro s hs
    cases hs
    constructor
    · intro q hq
      simp [Bridge.seqBegin, Bridge.mapSerializer, hq, Except.map]
    · intro m hm
      simp [Bridge.mapBegin, Bridge.mapSerializer, hm, Except.map]
  · intro h
    rcases cur with _ | c
    · exact ⟨⟨_, rfl⟩, ⟨_, rfl⟩, rfl, rfl⟩
    · cases c with
      | serializer s => exact absurd rfl (h s)
      | serializeSeq q => exact ⟨⟨_, rfl⟩, ⟨_, rfl⟩, rfl, rfl⟩
      | serializeMap m => exact ⟨⟨_, rfl⟩, ⟨_, rfl⟩, rfl, rfl⟩

/-- C6 witness: from the start state a `seq_begin(Some(3))` over the
collecting serializer stores the fresh sequence builder; at the mid-map
state the call result is identical for the collecting and the failing
serializer (the foreign start operation is not consulted). -/
theorem c6_witness :
    Bridge.seqBegin (collector Prim) (Bridge.beginStream ()) (some 3)
      = (.ok (), (⟨none, some .Root, some (.serializeSeq [])⟩ :
          StreamState (Out Prim) Unit (List Prim) (List (Sum Prim Prim))))
    ∧ Bridge.seqBegin (collector Prim) midMapState (some 3)
      = Bridge.seqBegin (failingSer Prim) midMapState (some 3) := by
  constructor
  · exact ((c6_begin_requires_bare_root (collector Prim) (failingSer Prim)
      (Bridge.beginStream ()) (some 3)).1 () rfl).1 [] rfl
  · exact ((c6_begin_requires_bare_root (collector Prim) (failingSer Prim)
      midMapState (some 3)).2 (fun s h => by simp [midMapState] at h)).2.2.1

/-- C7: `seq_end` succeeds exactly when the current builder is an active
sequence builder and its foreign end operation succeeds, and then stores the
end operation's output in the result slot (the builder slot is emptied);
`map_end` symmetrically for an active map builder; with any other
current-builder variant each returns a structural (message-only) error. -/
theorem c7_end_ops_require_matching_builder {V Ok E Ser Sq Mp : Type}
    (impl : SerImpl V Ok E Ser Sq Mp) (st : StreamState Ok Ser Sq Mp) :
    (∀ q o, st.current = some (.serializeSeq q) → impl.seqEnd q = .ok o →
        Bridge.seqEnd impl st = (.ok (), { st with current := none, ok := some o }))
    ∧ (∀ m o, st.current = some (.serializeMap m) → impl.mapEnd m = .ok o →
        Bridge.mapEnd impl st = (.ok (), { st with current := none, ok := some o }))
    ∧ ((∀ q, st.current ≠ some (.serializeSeq q)) →
        ∃ msg, (Bridge.seqEnd impl st).1 = .error (.msg msg))
    ∧ ((∀ m, st.current ≠ some (.serializeMap m)) →
        ∃ msg, (Bridge.mapEnd impl st).1 = .error (.msg msg))
    ∧ (∀ u, (Bridge.seqEnd impl st).1 = .ok u →
        ∃ q o, st.current = some (.serializeSeq q) ∧ impl.seqEnd q = .ok o
          ∧ (Bridge.seqEnd impl st).2.ok = some o)
    ∧ (∀ u, (Bridge.mapEnd impl st).1 = .ok u →
        ∃ m o, st.current = some (.serializeMap m) ∧ impl.mapEnd m = .ok o
          ∧ (Bridge.mapEnd impl st).2.ok = some o) := by
  obtain ⟨ok, pos, cur⟩ := st
  refine ⟨?_, ?_, ?_, ?_, ?_, ?_⟩
  · intro q o hc hq
    cases hc
    simp [Bridge.seqEnd, hq]
  · intro m o hc hm
    cases hc
    simp [Bridge.mapEnd, hm]
  · intro h
    rcases cur with _ | c
    · exact ⟨_, rfl⟩
    · cases c with
      | serializer s => exact ⟨_, rfl⟩
      | serializeSeq q => exact absurd rfl (h q)
      | serializeMap m => exact ⟨_, rfl⟩
  · intro h
    rcases cur with _ | c
    · exact ⟨_, rfl⟩
    · cases c with
      | serializer s => exact ⟨_, rfl⟩
      | serializeSeq q => exact ⟨_, rfl⟩
      | serializeMap m => exact absurd rfl (h m)
  · intro u hu
    rcases cur with _ | c
    · exact absurd hu (by simp [Bridge.seqEnd])
    · cases c with
      | serializer s => exact absurd hu (by simp [Bridge.seqEnd])
      | serializeSeq q =>
        rcases hq : impl.seqEnd q with e | o
        · exact absurd hu (by simp [Bridge.seqEnd, hq])
        · exact ⟨q, o, rfl, hq, by simp [Bridge.seqEnd, hq]⟩
      | serializeMap m => exact absurd hu (by simp [Bridge.seqEnd])
  · intro u hu
    rcases cur with _ | c
    · exact absurd hu (by simp [Bridge.mapEnd])
    · cases c with
      | serializer s => exact absurd hu (by simp [Bridge.mapEnd])
      | serializeSeq q => exact absurd hu (by simp [Bridge.mapEnd])
      | serializeMap m =>
        rcases hm : impl.mapEnd m with e | o
        · exact absurd hu (by simp [Bridge.mapEnd, hm])
        · exact ⟨m, o, rfl, hm, by simp [Bridge.mapEnd, hm]⟩

/-- C7 witness: ending the one-element sequence builder stores the foreign
end output `[1]` as the result, and `seq_end` at the mid-map state returns a
structural error. -/
theorem c7_witness :
    Bridge.seqEnd (collector Prim) midSeqState
      = (.ok (), { midSeqState with current := none, ok := some (.seqOut [.i64 1]) })
    ∧ ∃ msg, (Bridge.seqEnd (collector Prim) midMapState).1 = .error (.msg msg) := by
  constructor
  · exact (c7_end_ops_require_matching_builder (collector Prim) midSeqState).1
      [.i64 1] (.seqOut [.i64 1]) rfl rfl
  · exact (c7_end_ops_require_matching_builder (collector Prim) midMapState).2.2.1
      (fun q h => by simp [midMapState] at h)

/-- C8: every error returned by a foreign builder operation is wrapped into
the bridge's error type together with a fixed per-call-site context string
and never surfaces raw: "error map serializing key" for a map-key write,
"error serializing map value" for a map-value write, "error serializing
sequence element" for an element write, "error serializing 128bit signed
integer" for a Root-position primitive (the source uses this one fixed
string there for every primitive kind — the payload `v` is arbitrary in this
statement), "error completing sequence" for `seq_end`, "error completing
map" for `map_end`, and "error maping serializer" for `seq_begin` and
`map_begin`; the context strings of the distinct call sites are pairwise
distinct, so the context identifies which operation failed. -/
theorem c8_foreign_errors_wrapped {V Ok E Ser Sq Mp : Type}
    (impl : SerImpl V Ok E Ser Sq Mp) (st : StreamState Ok Ser Sq Mp)
    (v : V) (e : E) (len : Option Nat) :
    (∀ m, st.pos = some .Key → st.current = some (.serializeMap m) →
        impl.serializeKey m v = .error e →
        (Bridge.primitive impl st v).1
          = .error (.wrapped "error map serializing key" e))
    ∧ (∀ m, st.pos = some .Value → st.current = some (.serializeMap m) →
        impl.serializeValue m v = .error e →
        (Bridge.primitive impl st v).1
          = .error (.wrapped "error serializing map value" e))
    ∧ (∀ q, st.pos = some .Elem → st.current = some (.serializeSeq q) →
        impl.serializeElement q v = .error e →
        (Bridge.primitive impl st v).1
          = .error (.wrapped "error serializing sequence element" e))
    ∧ (∀ s, st.pos = some .Root → st.current = some (.serializer s) →
        impl.serializeRoot v s = .error e →
        (Bridge.primitive impl st v).1
          = .error (.wrapped "error serializing 128bit signed integer" e))
    ∧ (∀ q, st.current = some (.serializeSeq q) → impl.seqEnd q = .error e →
        (Bridge.seqEnd impl st).1 = .error (.wrapped "error completing sequence" e))
    ∧ (∀ m, st.current = some (.serializeMap m) → impl.mapEnd m = .error e →
        (Bridge.mapEnd impl st).1 = .error (.wrapped "error completing map" e))
    ∧ (∀ s, st.current = some (.serializer s) → impl.serializeSeq s len = .error e →
        (Bridge.seqBegin impl st len).1
          = .error (.wrapped "error maping serializer" e))
    ∧ (∀ s, st.current = some (.serializer s) → impl.serializeMap s len = .error e →
        (Bridge.mapBegin impl st len).1
          = .error (.wrapped "error maping serializer" e))
    ∧ (["error map serializing key", "error serializing map value",
        "error serializing sequence element",
        "error serializing 128bit signed integer", "error completing sequence",
        "error completing map", "error maping serializer"] : List String).Pairwise (· ≠ ·) := by
  obtain ⟨ok, pos, cur⟩ := st
  refine ⟨?_, ?_, ?_, ?_, ?_, ?_, ?_, ?_, by decide⟩
  · intro m hp hc hf
    cases hp; cases hc
    simp [Bridge.primitive, hf]
  · intro m hp hc hf
    cases hp; cases hc
    simp [Bridge.primitive, hf]
  · intro q hp hc hf
    cases hp; cases hc
    simp [Bridge.primitive, hf]
  · intro s hp hc hf
    cases hp; cases hc
    simp [Bridge.primitive, hf]
  · intro q hc hf
    cases hc
    simp [Bridge.seqEnd, hf]
  · intro m hc hf
    cases hc
    simp [Bridge.mapEnd, hf]
  · intro s hc hf
    cases hc
    simp [Bridge.seqBegin, Bridge.mapSerializer, hf, Except.map]
  · intro s hc hf
    cases hc
    simp [Bridge.mapBegin, Bridge.mapSerializer, hf, Except.map]

/-- C8 witness: with the always-failing serializer, a Root-position bool
primitive from the start state yields the wrapped root-site context, and
`seq_end` at the mid-sequence state yields the wrapped completing-sequence
context. -/
theorem c8_witness :
    (Bridge.primitive (failingSer Prim) (Bridge.beginStream ())
        (Prim.bool true)).1
      = .error (.wrapped "error serializing 128bit signed integer" "root failed")
    ∧ (Bridge.seqEnd (failingSer Prim) midSeqState).1
      = .error (.wrapped "error completing sequence" "seq end failed") := by
  constructor
  · exact (c8_foreign_errors_wrapped (failingSer Prim) (Bridge.beginStream ())
      (Prim.bool true) "root failed" none).2.2.2.1 () rfl rfl rfl
  · exact (c8_foreign_errors_wrapped (failingSer Prim) midSeqState
      (Prim.bool true) "seq end failed" none).2.2.2.2.1 [.i64 1] rfl rfl

end Sval
